import Mathlib

/-!
Verification of the AST node model of the BMinor compiler front end
(`src/model.py`), together with the parse-driver return convention used by
its test file (`src/test_parser.py`).

The development has three layers, each a shallow embedding of a part of the
source:

1. a dynamic-object model of the Python `@dataclass` construction machinery
   (field binding with defaults, `__post_init__` validation, generated
   equality), used for the construction-contract claims about the literal
   node classes and about the duplicated `@dataclass` decoration;
2. a pure tree model `Node` of the AST variants themselves, with the
   dataclass structural equality and the `pretty()` traversal translated
   over it;
3. a small heap-of-lists model making Python list identity explicit, used
   for the `default_factory` freshness claims.

Machine integers do not occur (Python ints are unbounded, modelled as `Int`);
float payloads are never computed with, only stored and compared for
identity of their source token, so they are carried as plain strings.
-/

/-- Universe of primitive Python values that can reach the node
constructors of `model.py`: ints, bools, floats, strings and `None`.
Python `bool` is a separate constructor even though it subclasses `int`;
the subclass relation is reflected in the `isinstance` checks below.
Float payloads are carried as their source token, uninterpreted. -/
inductive PyVal where
  | vInt (n : Int)
  | vBool (b : Bool)
  | vFloat (tok : String)
  | vStr (s : String)
  | vNone
deriving DecidableEq, Repr

/-- Model of Python `isinstance(v, int)`. Python `bool` is a subclass of
`int`, so `isinstance(True, int)` is `True`: both `vInt` and `vBool` pass. -/
def isinstInt : PyVal → Bool
  | .vInt _ => true
  | .vBool _ => true
  | _ => false

/-- Model of Python `isinstance(v, float)`: only float values pass
(`isinstance(1, float)` and `isinstance(True, float)` are both `False`). -/
def isinstFloat : PyVal → Bool
  | .vFloat _ => true
  | _ => false

/-- Model of Python `isinstance(v, bool)`: only `True`/`False` pass;
plain ints do not (`isinstance(1, bool)` is `False`). -/
def isinstBool : PyVal → Bool
  | .vBool _ => true
  | _ => false

/-- Model of Python `isinstance(v, str)`. -/
def isinstStr : PyVal → Bool
  | .vStr _ => true
  | _ => false

/-- Model of the `Char` validation condition of `model.py` line 218:
`isinstance(self.value, str) and len(self.value) == 1`. -/
def isinstChar1 : PyVal → Bool
  | .vStr s => s.length == 1
  | _ => false

/-- Model of Python `==` between the primitive values above, as used by the
dataclass-generated `__eq__` on field values. Python compares `bool` with
`int` numerically (`True == 1`, `False == 0`); `None` equals only `None`;
float tokens are compared as tokens (cross-type numeric equality between
int and float literals is below the resolution of this model). -/
def pyEq : PyVal → PyVal → Bool
  | .vInt m, .vInt n => m == n
  | .vBool a, .vBool b => a == b
  | .vInt m, .vBool b => m == (if b then 1 else 0)
  | .vBool b, .vInt n => (if b then (1 : Int) else 0) == n
  | .vFloat x, .vFloat y => x == y
  | .vStr s, .vStr t => s == t
  | .vNone, .vNone => true
  | _, _ => false

/-- Dynamic Python object: its `__dict__`, an ordered association of
attribute names to values (insertion order, as CPython preserves it). -/
abbrev Obj := List (String × PyVal)

/-- Attribute lookup on an object dictionary. -/
def Obj.getF : Obj → String → Option PyVal
  | [], _ => none
  | (k, v) :: rest, key => if k == key then some v else Obj.getF rest key

/-- Attribute assignment (`setattr`): replaces an existing binding in
place, or appends a fresh one. -/
def Obj.setF : Obj → String → PyVal → Obj
  | [], key, v => [(key, v)]
  | (k, w) :: rest, key, v =>
      if k == key then (key, v) :: rest else (k, w) :: Obj.setF rest key v

/-- Dataclass field specification: the attribute name and, when the class
body gives the annotation a default value, that default. -/
structure FieldSpec where
  name : String
  default : Option PyVal
deriving Repr

/-- Positional binding of constructor arguments against the field list, as
the dataclass-generated `__init__` performs it: each field takes the next
positional argument, or its default, and a missing required argument or an
excess argument raises `TypeError`. -/
def bindArgs : List FieldSpec → List PyVal → Except String Obj
  | [], [] => .ok []
  | [], _ :: _ => .error "TypeError: too many positional arguments"
  | f :: fs, [] =>
      match f.default with
      | some d => do
          let rest ← bindArgs fs []
          .ok ((f.name, d) :: rest)
      | none => .error "TypeError: missing required positional argument"
  | f :: fs, a :: as => do
      let rest ← bindArgs fs as
      .ok ((f.name, a) :: rest)

/-- Source description of one of the Python classes of `model.py` before
decoration: its annotated fields in declaration order (base-class fields
first, as the dataclass machinery merges them), its `__post_init__` body if
the class defines one, and the `__init__`/`__eq__` slots of the class
dictionary (empty before the first `@dataclass` application). -/
structure PyClassDef where
  ann : List FieldSpec
  postInit : Option (Obj → Except String Obj)
  init : Option (List PyVal → Except String Obj)
  eqFn : Option (Obj → Obj → Bool)

/-- Constructor that `@dataclass` generates from the field list: bind the
positional arguments, then run `__post_init__` when the class defines one
(a failing `assert` inside it surfaces as an error and no object is
produced). -/
def genInit (ann : List FieldSpec) (postInit : Option (Obj → Except String Obj)) :
    List PyVal → Except String Obj :=
  fun args => do
    let o ← bindArgs ann args
    match postInit with
    | some f => f o
    | none => .ok o

/-- Structural `__eq__` that `@dataclass` generates: compare the two
objects field by field (the class-identity guard is handled one level up,
in the tree model below, where cross-variant comparison is hardwired to
false). -/
def genEq (ann : List FieldSpec) : Obj → Obj → Bool :=
  fun o1 o2 =>
    ann.all fun f =>
      pyEq ((Obj.getF o1 f.name).getD .vNone) ((Obj.getF o2 f.name).getD .vNone)

/-- Effect of one application of the `@dataclass` decorator: it reads the
annotations (leaving them unchanged) and installs the generated `__init__`
and `__eq__` only when the class dictionary does not already hold one —
CPython `dataclasses._set_new_attribute` skips names already present, and
the documentation states the `init`/`eq` parameters are ignored when the
method is already defined. -/
def dataclassDecorate (c : PyClassDef) : PyClassDef :=
  { c with
    init := some (c.init.getD (genInit c.ann c.postInit))
    eqFn := some (c.eqFn.getD (genEq c.ann)) }

/-- Calling a class: dispatch to its `__init__` slot. An undecorated class
with no `__init__` accepts only the empty argument list (plain
`object.__init__`). -/
def pyNew (c : PyClassDef) (args : List PyVal) : Except String Obj :=
  match c.init with
  | some f => f args
  | none => if args.isEmpty then .ok [] else .error "TypeError: object takes no arguments"

/-- Success test on a construction outcome. -/
def isOk : Except String Obj → Bool
  | .ok _ => true
  | .error _ => false

/-- Observation of one attribute of a construction outcome: the field value
on success, nothing when construction failed. -/
def fieldOf (r : Except String Obj) (key : String) : Option PyVal :=
  match r with
  | .ok o => Obj.getF o key
  | .error _ => none

/-- Body of `Integer.__post_init__` (`model.py` lines 175-177): assert
`isinstance(self.value, int)`, then overwrite `self.type` with the fixed
tag `integer`. -/
def integerPostInit (o : Obj) : Except String Obj :=
  if isinstInt ((Obj.getF o "value").getD .vNone) then
    .ok (Obj.setF o "type" (.vStr "integer"))
  else
    .error "AssertionError: Value debe ser un integer"

/-- Body of `Float.__post_init__` (`model.py` lines 189-191). -/
def floatPostInit (o : Obj) : Except String Obj :=
  if isinstFloat ((Obj.getF o "value").getD .vNone) then
    .ok (Obj.setF o "type" (.vStr "float"))
  else
    .error "AssertionError: Value debe ser un float"

/-- Body of `Boolean.__post_init__` (`model.py` lines 203-205). -/
def booleanPostInit (o : Obj) : Except String Obj :=
  if isinstBool ((Obj.getF o "value").getD .vNone) then
    .ok (Obj.setF o "type" (.vStr "boolean"))
  else
    .error "AssertionError: Value debe ser un boolean"

/-- Body of `Char.__post_init__` (`model.py` lines 217-219): assert
`isinstance(self.value, str) and len(self.value) == 1`. -/
def charPostInit (o : Obj) : Except String Obj :=
  if isinstChar1 ((Obj.getF o "value").getD .vNone) then
    .ok (Obj.setF o "type" (.vStr "char"))
  else
    .error "AssertionError: Value debe ser un char"

/-- Body of `String.__post_init__` (`model.py` lines 231-233). -/
def stringPostInit (o : Obj) : Except String Obj :=
  if isinstStr ((Obj.getF o "value").getD .vNone) then
    .ok (Obj.setF o "type" (.vStr "string"))
  else
    .error "AssertionError: Value debe ser un string"

/-- Field list shared by `Literal` and its five subclasses: `value` with no
default, then the inherited `type : str = None`. Each subclass redeclares
`value` without a default, which keeps its original position and
defaultlessness under the dataclass field-merge rules. -/
def literalAnn : List FieldSpec :=
  [⟨"value", none⟩, ⟨"type", some .vNone⟩]

/-- Undecorated class body of `Literal` (`model.py` lines 153-163). -/
def literalClass : PyClassDef :=
  { ann := literalAnn, postInit := none, init := none, eqFn := none }

/-- Undecorated class body of `Integer` (`model.py` lines 165-177). -/
def integerClass : PyClassDef :=
  { ann := literalAnn, postInit := some integerPostInit, init := none, eqFn := none }

/-- Undecorated class body of `Float` (`model.py` lines 179-191). -/
def floatClass : PyClassDef :=
  { ann := literalAnn, postInit := some floatPostInit, init := none, eqFn := none }

/-- Undecorated class body of `Boolean` (`model.py` lines 193-205). -/
def booleanClass : PyClassDef :=
  { ann := literalAnn, postInit := some booleanPostInit, init := none, eqFn := none }

/-- Undecorated class body of `Char` (`model.py` lines 207-219). -/
def charClass : PyClassDef :=
  { ann := literalAnn, postInit := some charPostInit, init := none, eqFn := none }

/-- Undecorated class body of `String` (`model.py` lines 221-233). -/
def stringClass : PyClassDef :=
  { ann := literalAnn, postInit := some stringPostInit, init := none, eqFn := none }

/-- Undecorated class body of `BinOper` (`model.py` lines 128-139). -/
def binOperClass : PyClassDef :=
  { ann := [⟨"oper", none⟩, ⟨"left", none⟩, ⟨"right", none⟩],
    postInit := none, init := none, eqFn := none }

/-- Undecorated class body of `UnaryOper` (`model.py` lines 141-151). -/
def unaryOperClass : PyClassDef :=
  { ann := [⟨"oper", none⟩, ⟨"expr", none⟩],
    postInit := none, init := none, eqFn := none }

/-- Undecorated class body of `VarDecl` (`model.py` lines 86-97):
`name`, `type`, and `value` with default `None`. -/
def varDeclClass : PyClassDef :=
  { ann := [⟨"name", none⟩, ⟨"type", none⟩, ⟨"value", some .vNone⟩],
    postInit := none, init := none, eqFn := none }

/-- Undecorated class body of `ReturnStmt` (`model.py` lines 350-354):
single field `expr` with default `None`. -/
def returnStmtClass : PyClassDef :=
  { ann := [⟨"expr", some .vNone⟩],
    postInit := none, init := none, eqFn := none }

/-- Undecorated class body of `IfStmt` (`model.py` lines 314-325):
`condition`, `then_stmt`, and `else_stmt` with default `None`. -/
def ifStmtClass : PyClassDef :=
  { ann := [⟨"condition", none⟩, ⟨"then_stmt", none⟩, ⟨"else_stmt", some .vNone⟩],
    postInit := none, init := none, eqFn := none }

/-- The `Integer` class as the source defines it: decorated twice
(`model.py` lines 165-166 stack two `@dataclass` lines). -/
def integerCls : PyClassDef := dataclassDecorate (dataclassDecorate integerClass)

/-- The doubly decorated `Float` class (`model.py` lines 179-180). -/
def floatCls : PyClassDef := dataclassDecorate (dataclassDecorate floatClass)

/-- The doubly decorated `Boolean` class (`model.py` lines 193-194). -/
def booleanCls : PyClassDef := dataclassDecorate (dataclassDecorate booleanClass)

/-- The doubly decorated `Char` class (`model.py` lines 207-208). -/
def charCls : PyClassDef := dataclassDecorate (dataclassDecorate charClass)

/-- The doubly decorated `String` class (`model.py` lines 221-222). -/
def stringCls : PyClassDef := dataclassDecorate (dataclassDecorate stringClass)

/-- The singly decorated `VarDecl` class (`model.py` line 86). -/
def varDeclCls : PyClassDef := dataclassDecorate varDeclClass

/-- The singly decorated `ReturnStmt` class (`model.py` line 350). -/
def returnStmtCls : PyClassDef := dataclassDecorate returnStmtClass

/-- The singly decorated `IfStmt` class (`model.py` line 314). -/
def ifStmtCls : PyClassDef := dataclassDecorate ifStmtClass

example : pyNew integerCls [.vInt 5] =
    .ok [("value", .vInt 5), ("type", .vStr "integer")] := rfl
example : isOk (pyNew integerCls [.vStr "x"]) = false := by decide
example : pyNew integerCls [.vBool true, .vStr "bogus"] =
    .ok [("value", .vBool true), ("type", .vStr "integer")] := rfl
example : isOk (pyNew booleanCls [.vInt 1]) = false := by decide
example : fieldOf (pyNew varDeclCls [.vStr "x", .vStr "integer"]) "value" =
    some .vNone := by decide
example : fieldOf (pyNew returnStmtCls []) "expr" = some .vNone := by decide
example : isOk (pyNew charCls [.vStr "ab"]) = false := by decide
example : fieldOf (pyNew charCls [.vStr "a"]) "type" = some (.vStr "char") := by decide

/-- Closed set of AST node variants defined in `model.py`, as a tree type.
Every concrete dataclass of the file is a constructor, with its fields in
declaration order and with the same optionality: `Option Node` models a
field whose default is `None`, `List Node` a `default_factory=list` field.
The abstract but instantiable dataclasses `Statement`, `Expression`,
`Declaration` and `Location` (no fields of their own) appear as the
`...B` constructors; the root class `Node` itself is never instantiated by
the component and carries no pretty method, so it has no constructor here.
Literal subclasses store their `value` as a `PyVal` and their `type` tag as
an `Option String` (`None` before `__post_init__` runs). -/
inductive Node where
  | program (body : List Node)
  | declarationB
  | varDecl (name : String) (ty : Node) (value : Option Node)
  | arrayDecl (name : String) (ty : Node) (dimensions : List Node) (value : Option Node)
  | funcDecl (name : String) (returnType : Node) (params : List Node) (body : List Node)
  | varParm (name : String) (ty : Node)
  | arrayParm (name : String) (ty : Node) (dimensions : List Node)
  | statementB
  | ifStmt (condition : Node) (thenStmt : Node) (elseStmt : Option Node)
  | whileStmt (condition : Node) (body : Node)
  | doWhileStmt (body : Node) (condition : Node)
  | forStmt (init : Node) (condition : Node) (update : Node) (body : Node)
  | returnStmt (expr : Option Node)
  | printStmt (expr : Node)
  | assignment (location : Node) (value : Node)
  | expressionB
  | binOper (oper : String) (left : Node) (right : Node)
  | unaryOper (oper : String) (expr : Node)
  | literal (value : PyVal) (ty : Option String)
  | integer (value : PyVal) (ty : Option String)
  | float (value : PyVal) (ty : Option String)
  | boolean (value : PyVal) (ty : Option String)
  | char (value : PyVal) (ty : Option String)
  | string (value : PyVal) (ty : Option String)
  | preInc (expr : Node)
  | preDec (expr : Node)
  | postInc (expr : Node)
  | postDec (expr : Node)
  | funcCall (name : String) (args : List Node)
  | locationB
  | varLoc (name : String)
  | arrayLoc (name : String) (indices : List Node)

/-- Python `==` on a `type`-tag field holding a string or `None`. -/
def optStrEq : Option String → Option String → Bool
  | none, none => true
  | some s, some t => s == t
  | _, _ => false


mutual

/-- Translation of the dataclass-generated `__eq__` over the node tree:
two nodes compare equal only when they are instances of the very same
class (the `other.__class__ is self.__class__` guard makes every
cross-variant comparison unequal), and then field by field in declaration
order: child nodes recursively, ordered child lists pointwise, optional
children with `None` equal only to `None`, name and operator strings by
string equality, literal payloads by Python value equality. -/
def nodeEq : Node → Node → Bool
  | .program body1, b =>
      match b with
      | .program body2 => nodesEq body1 body2
      | _ => false
  | .declarationB, b =>
      match b with
      | .declarationB => true
      | _ => false
  | .varDecl name1 ty1 value1, b =>
      match b with
      | .varDecl name2 ty2 value2 => name1 == name2 && nodeEq ty1 ty2 && optNodeEq value1 value2
      | _ => false
  | .arrayDecl name1 ty1 dimensions1 value1, b =>
      match b with
      | .arrayDecl name2 ty2 dimensions2 value2 => name1 == name2 && nodeEq ty1 ty2 && nodesEq dimensions1 dimensions2 && optNodeEq value1 value2
      | _ => false
  | .funcDecl name1 returnType1 params1 body1, b =>
      match b with
      | .funcDecl name2 returnType2 params2 body2 => name1 == name2 && nodeEq returnType1 returnType2 && nodesEq params1 params2 && nodesEq body1 body2
      | _ => false
  | .varParm name1 ty1, b =>
      match b with
      | .varParm name2 ty2 => name1 == name2 && nodeEq ty1 ty2
      | _ => false
  | .arrayParm name1 ty1 dimensions1, b =>
      match b with
      | .arrayParm name2 ty2 dimensions2 => name1 == name2 && nodeEq ty1 ty2 && nodesEq dimensions1 dimensions2
      | _ => false
  | .statementB, b =>
      match b with
      | .statementB => true
      | _ => false
  | .ifStmt condition1 thenStmt1 elseStmt1, b =>
      match b with
      | .ifStmt condition2 thenStmt2 elseStmt2 => nodeEq condition1 condition2 && nodeEq thenStmt1 thenStmt2 && optNodeEq elseStmt1 elseStmt2
      | _ => false
  | .whileStmt condition1 body1, b =>
      match b with
      | .whileStmt condition2 body2 => nodeEq condition1 condition2 && nodeEq body1 body2
      | _ => false
  | .doWhileStmt body1 condition1, b =>
      match b with
      | .doWhileStmt body2 condition2 => nodeEq body1 body2 && nodeEq condition1 condition2
      | _ => false
  | .forStmt init1 condition1 update1 body1, b =>
      match b with
      | .forStmt init2 condition2 update2 body2 => nodeEq init1 init2 && nodeEq condition1 condition2 && nodeEq update1 update2 && nodeEq body1 body2
      | _ => false
  | .returnStmt expr1, b =>
      match b with
      | .returnStmt expr2 => optNodeEq expr1 expr2
      | _ => false
  | .printStmt expr1, b =>
      match b with
      | .printStmt expr2 => nodeEq expr1 expr2
      | _ => false
  | .assignment location1 value1, b =>
      match b with
      | .assignment location2 value2 => nodeEq location1 location2 && nodeEq value1 value2
      | _ => false
  | .expressionB, b =>
      match b with
      | .expressionB => true
      | _ => false
  | .binOper oper1 left1 right1, b =>
      match b with
      | .binOper oper2 left2 right2 => oper1 == oper2 && nodeEq left1 left2 && nodeEq right1 right2
      | _ => false
  | .unaryOper oper1 expr1, b =>
      match b with
      | .unaryOper oper2 expr2 => oper1 == oper2 && nodeEq expr1 expr2
      | _ => false
  | .literal value1 ty1, b =>
      match b with
      | .literal value2 ty2 => pyEq value1 value2 && optStrEq ty1 ty2
      | _ => false
  | .integer value1 ty1, b =>
      match b with
      | .integer value2 ty2 => pyEq value1 value2 && optStrEq ty1 ty2
      | _ => false
  | .float value1 ty1, b =>
      match b with
      | .float value2 ty2 => pyEq value1 value2 && optStrEq ty1 ty2
      | _ => false
  | .boolean value1 ty1, b =>
      match b with
      | .boolean value2 ty2 => pyEq value1 value2 && optStrEq ty1 ty2
      | _ => false
  | .char value1 ty1, b =>
      match b with
      | .char value2 ty2 => pyEq value1 value2 && optStrEq ty1 ty2
      | _ => false
  | .string value1 ty1, b =>
      match b with
      | .string value2 ty2 => pyEq value1 value2 && optStrEq ty1 ty2
      | _ => false
  | .preInc expr1, b =>
      match b with
      | .preInc expr2 => nodeEq expr1 expr2
      | _ => false
  | .preDec expr1, b =>
      match b with
      | .preDec expr2 => nodeEq expr1 expr2
      | _ => false
  | .postInc expr1, b =>
      match b with
      | .postInc expr2 => nodeEq expr1 expr2
      | _ => false
  | .postDec expr1, b =>
      match b with
      | .postDec expr2 => nodeEq expr1 expr2
      | _ => false
  | .funcCall name1 args1, b =>
      match b with
      | .funcCall name2 args2 => name1 == name2 && nodesEq args1 args2
      | _ => false
  | .locationB, b =>
      match b with
      | .locationB => true
      | _ => false
  | .varLoc name1, b =>
      match b with
      | .varLoc name2 => name1 == name2
      | _ => false
  | .arrayLoc name1 indices1, b =>
      match b with
      | .arrayLoc name2 indices2 => name1 == name2 && nodesEq indices1 indices2
      | _ => false

/-- Python `==` on list-valued fields: equal length and pointwise equal
elements. -/
def nodesEq : List Node → List Node → Bool
  | [], [] => true
  | a :: as, b :: bs => nodeEq a b && nodesEq as bs
  | _, _ => false

/-- Python `==` on an optional child field holding a node or `None`. -/
def optNodeEq : Option Node → Option Node → Bool
  | none, none => true
  | some a, some b => nodeEq a b
  | _, _ => false

end

mutual

/-- Specification-side structural equality, following the spec sentence
that node equality is structural: two nodes are related exactly when they
are the same variant and their corresponding fields are recursively equal —
child nodes by this very relation, ordered child lists pointwise, optional
children with `None` matching only `None`, name and operator fields by
string equality, tag fields by equality of the optional tag, and literal
payloads by Python value equality. -/
def structEq : Node → Node → Prop
  | .program body1, b =>
      match b with
      | .program body2 => structEqs body1 body2
      | _ => False
  | .declarationB, b =>
      match b with
      | .declarationB => True
      | _ => False
  | .varDecl name1 ty1 value1, b =>
      match b with
      | .varDecl name2 ty2 value2 => name1 = name2 ∧ structEq ty1 ty2 ∧ structEqOpt value1 value2
      | _ => False
  | .arrayDecl name1 ty1 dimensions1 value1, b =>
      match b with
      | .arrayDecl name2 ty2 dimensions2 value2 => name1 = name2 ∧ structEq ty1 ty2 ∧ structEqs dimensions1 dimensions2 ∧ structEqOpt value1 value2
      | _ => False
  | .funcDecl name1 returnType1 params1 body1, b =>
      match b with
      | .funcDecl name2 returnType2 params2 body2 => name1 = name2 ∧ structEq returnType1 returnType2 ∧ structEqs params1 params2 ∧ structEqs body1 body2
      | _ => False
  | .varParm name1 ty1, b =>
      match b with
      | .varParm name2 ty2 => name1 = name2 ∧ structEq ty1 ty2
      | _ => False
  | .arrayParm name1 ty1 dimensions1, b =>
      match b with
      | .arrayParm name2 ty2 dimensions2 => name1 = name2 ∧ structEq ty1 ty2 ∧ structEqs dimensions1 dimensions2
      | _ => False
  | .statementB, b =>
      match b with
      | .statementB => True
      | _ => False
  | .ifStmt condition1 thenStmt1 elseStmt1, b =>
      match b with
      | .ifStmt condition2 thenStmt2 elseStmt2 => structEq condition1 condition2 ∧ structEq thenStmt1 thenStmt2 ∧ structEqOpt elseStmt1 elseStmt2
      | _ => False
  | .whileStmt condition1 body1, b =>
      match b with
      | .whileStmt condition2 body2 => structEq condition1 condition2 ∧ structEq body1 body2
      | _ => False
  | .doWhileStmt body1 condition1, b =>
      match b with
      | .doWhileStmt body2 condition2 => structEq body1 body2 ∧ structEq condition1 condition2
      | _ => False
  | .forStmt init1 condition1 update1 body1, b =>
      match b with
      | .forStmt init2 condition2 update2 body2 => structEq init1 init2 ∧ structEq condition1 condition2 ∧ structEq update1 update2 ∧ structEq body1 body2
      | _ => False
  | .returnStmt expr1, b =>
      match b with
      | .returnStmt expr2 => structEqOpt expr1 expr2
      | _ => False
  | .printStmt expr1, b =>
      match b with
      | .printStmt expr2 => structEq expr1 expr2
      | _ => False
  | .assignment location1 value1, b =>
      match b with
      | .assignment location2 value2 => structEq location1 location2 ∧ structEq value1 value2
      | _ => False
  | .expressionB, b =>
      match b with
      | .expressionB => True
      | _ => False
  | .binOper oper1 left1 right1, b =>
      match b with
      | .binOper oper2 left2 right2 => oper1 = oper2 ∧ structEq left1 left2 ∧ structEq right1 right2
      | _ => False
  | .unaryOper oper1 expr1, b =>
      match b with
      | .unaryOper oper2 expr2 => oper1 = oper2 ∧ structEq expr1 expr2
      | _ => False
  | .literal value1 ty1, b =>
      match b with
      | .literal value2 ty2 => pyEq value1 value2 = true ∧ ty1 = ty2
      | _ => False
  | .integer value1 ty1, b =>
      match b with
      | .integer value2 ty2 => pyEq value1 value2 = true ∧ ty1 = ty2
      | _ => False
  | .float value1 ty1, b =>
      match b with
      | .float value2 ty2 => pyEq value1 value2 = true ∧ ty1 = ty2
      | _ => False
  | .boolean value1 ty1, b =>
      match b with
      | .boolean value2 ty2 => pyEq value1 value2 = true ∧ ty1 = ty2
      | _ => False
  | .char value1 ty1, b =>
      match b with
      | .char value2 ty2 => pyEq value1 value2 = true ∧ ty1 = ty2
      | _ => False
  | .string value1 ty1, b =>
      match b with
      | .string value2 ty2 => pyEq value1 value2 = true ∧ ty1 = ty2
      | _ => False
  | .preInc expr1, b =>
      match b with
      | .preInc expr2 => structEq expr1 expr2
      | _ => False
  | .preDec expr1, b =>
      match b with
      | .preDec expr2 => structEq expr1 expr2
      | _ => False
  | .postInc expr1, b =>
      match b with
      | .postInc expr2 => structEq expr1 expr2
      | _ => False
  | .postDec expr1, b =>
      match b with
      | .postDec expr2 => structEq expr1 expr2
      | _ => False
  | .funcCall name1 args1, b =>
      match b with
      | .funcCall name2 args2 => name1 = name2 ∧ structEqs args1 args2
      | _ => False
  | .locationB, b =>
      match b with
      | .locationB => True
      | _ => False
  | .varLoc name1, b =>
      match b with
      | .varLoc name2 => name1 = name2
      | _ => False
  | .arrayLoc name1 indices1, b =>
      match b with
      | .arrayLoc name2 indices2 => name1 = name2 ∧ structEqs indices1 indices2
      | _ => False

/-- Pointwise structural equality of ordered child lists. -/
def structEqs : List Node → List Node → Prop
  | [], [] => True
  | a :: as, b :: bs => structEq a b ∧ structEqs as bs
  | _, _ => False

/-- Structural equality of optional children. -/
def structEqOpt : Option Node → Option Node → Prop
  | none, none => True
  | some a, some b => structEq a b
  | _, _ => False

end

/-- Members of a list are smaller than the list in the auto-generated size
measure. -/
theorem sizeOf_lt_of_mem_node {a : Node} {as : List Node} (h : a ∈ as) :
    sizeOf a < sizeOf as := by
  induction as with
  | nil => cases h
  | cons x xs ih =>
    cases h with
    | head => simp; omega
    | tail _ hmem => have := ih hmem; simp; omega

/-- Boolean equality of optional tag strings agrees with equality. -/
theorem optStrEq_iff (s t : Option String) : optStrEq s t = true ↔ s = t := by
  cases s <;> cases t <;> simp [optStrEq]

/-- Congruence step for list fields: when every member of the left list
decides structural equality against arbitrary nodes, the boolean list
comparison decides pointwise structural equality. -/
theorem nodesEq_iff_of (as : List Node)
    (ihn : ∀ a ∈ as, ∀ b, (nodeEq a b = true ↔ structEq a b)) :
    ∀ bs, nodesEq as bs = true ↔ structEqs as bs := by
  induction as with
  | nil => intro bs; cases bs <;> simp [nodesEq, structEqs]
  | cons a as ihl =>
    intro bs
    cases bs with
    | nil => simp [nodesEq, structEqs]
    | cons b bs =>
      simp only [nodesEq, structEqs, Bool.and_eq_true]
      exact and_congr (ihn a (by simp) b)
        (ihl (fun a ha b => ihn a (by simp [ha]) b) bs)

/-- Congruence step for optional child fields. -/
theorem optNodeEq_iff_of (v1 : Option Node)
    (ihn : ∀ a, v1 = some a → ∀ b, (nodeEq a b = true ↔ structEq a b)) :
    ∀ v2, optNodeEq v1 v2 = true ↔ structEqOpt v1 v2 := by
  intro v2
  cases v1 with
  | none => cases v2 <;> simp [optNodeEq, structEqOpt]
  | some a =>
    cases v2 with
    | none => simp [optNodeEq, structEqOpt]
    | some b => simpa only [optNodeEq, structEqOpt] using ihn a rfl b

/-- Main induction for the structural-equality claim, by strong induction
on the size of the left node, one case per variant pair. -/
theorem nodeEq_iff_aux :
    ∀ (k : Nat) (a b : Node), sizeOf a < k → (nodeEq a b = true ↔ structEq a b) := by
  intro k
  induction k with
  | zero => intro a b h; exact absurd h (Nat.not_lt_zero _)
  | succ k ih =>
    intro a b h
    cases a with
    | program body1 =>
      cases b <;> simp only [nodeEq, structEq]
      case program body2 =>
        exact (nodesEq_iff_of body1 (fun a ha b => ih a b (by have hm := sizeOf_lt_of_mem_node ha; simp at h; omega)) body2)
      all_goals simp
    | declarationB =>
      cases b <;> simp only [nodeEq, structEq] <;> simp [optStrEq_iff]
    | varDecl name1 ty1 value1 =>
      cases b <;> simp only [nodeEq, structEq]
      case varDecl name2 ty2 value2 =>
        simp only [Bool.and_eq_true, beq_iff_eq, and_assoc]
        exact (and_congr Iff.rfl (and_congr (ih ty1 ty2 (by simp at h; omega)) (optNodeEq_iff_of value1 (fun a ha b => ih a b (by subst ha; simp at h; omega)) value2)))
      all_goals simp
    | arrayDecl name1 ty1 dimensions1 value1 =>
      cases b <;> simp only [nodeEq, structEq]
      case arrayDecl name2 ty2 dimensions2 value2 =>
        simp only [Bool.and_eq_true, beq_iff_eq, and_assoc]
        exact (and_congr Iff.rfl (and_congr (ih ty1 ty2 (by simp at h; omega)) (and_congr (nodesEq_iff_of dimensions1 (fun a ha b => ih a b (by have hm := sizeOf_lt_of_mem_node ha; simp at h; omega)) dimensions2) (optNodeEq_iff_of value1 (fun a ha b => ih a b (by subst ha; simp at h; omega)) value2))))
      all_goals simp
    | funcDecl name1 returnType1 params1 body1 =>
      cases b <;> simp only [nodeEq, structEq]
      case funcDecl name2 returnType2 params2 body2 =>
        simp only [Bool.and_eq_true, beq_iff_eq, and_assoc]
        exact (and_congr Iff.rfl (and_congr (ih returnType1 returnType2 (by simp at h; omega)) (and_congr (nodesEq_iff_of params1 (fun a ha b => ih a b (by have hm := sizeOf_lt_of_mem_node ha; simp at h; omega)) params2) (nodesEq_iff_of body1 (fun a ha b => ih a b (by have hm := sizeOf_lt_of_mem_node ha; simp at h; omega)) body2))))
      all_goals simp
    | varParm name1 ty1 =>
      cases b <;> simp only [nodeEq, structEq]
      case varParm name2 ty2 =>
        simp only [Bool.and_eq_true, beq_iff_eq, and_assoc]
        exact (and_congr Iff.rfl (ih ty1 ty2 (by simp at h; omega)))
      all_goals simp
    | arrayParm name1 ty1 dimensions1 =>
      cases b <;> simp only [nodeEq, structEq]
      case arrayParm name2 ty2 dimensions2 =>
        simp only [Bool.and_eq_true, beq_iff_eq, and_assoc]
        exact (and_congr Iff.rfl (and_congr (ih ty1 ty2 (by simp at h; omega)) (nodesEq_iff_of dimensions1 (fun a ha b => ih a b (by have hm := sizeOf_lt_of_mem_node ha; simp at h; omega)) dimensions2)))
      all_goals simp
    | statementB =>
      cases b <;> simp only [nodeEq, structEq] <;> simp [optStrEq_iff]
    | ifStmt condition1 thenStmt1 elseStmt1 =>
      cases b <;> simp only [nodeEq, structEq]
      case ifStmt condition2 thenStmt2 elseStmt2 =>
        simp only [Bool.and_eq_true, beq_iff_eq, and_assoc]
        exact (and_congr (ih condition1 condition2 (by simp at h; omega)) (and_congr (ih thenStmt1 thenStmt2 (by simp at h; omega)) (optNodeEq_iff_of elseStmt1 (fun a ha b => ih a b (by subst ha; simp at h; omega)) elseStmt2)))
      all_goals simp
    | whileStmt condition1 body1 =>
      cases b <;> simp only [nodeEq, structEq]
      case whileStmt condition2 body2 =>
        simp only [Bool.and_eq_true, beq_iff_eq, and_assoc]
        exact (and_congr (ih condition1 condition2 (by simp at h; omega)) (ih body1 body2 (by simp at h; omega)))
      all_goals simp
    | doWhileStmt body1 condition1 =>
      cases b <;> simp only [nodeEq, structEq]
      case doWhileStmt body2 condition2 =>
        simp only [Bool.and_eq_true, beq_iff_eq, and_assoc]
        exact (and_congr (ih body1 body2 (by simp at h; omega)) (ih condition1 condition2 (by simp at h; omega)))
      all_goals simp
    | forStmt init1 condition1 update1 body1 =>
      cases b <;> simp only [nodeEq, structEq]
      case forStmt init2 condition2 update2 body2 =>
        simp only [Bool.and_eq_true, beq_iff_eq, and_assoc]
        exact (and_congr (ih init1 init2 (by simp at h; omega)) (and_congr (ih condition1 condition2 (by simp at h; omega)) (and_congr (ih update1 update2 (by simp at h; omega)) (ih body1 body2 (by simp at h; omega)))))
      all_goals simp
    | returnStmt expr1 =>
      cases b <;> simp only [nodeEq, structEq]
      case returnStmt expr2 =>
        exact (optNodeEq_iff_of expr1 (fun a ha b => ih a b (by subst ha; simp at h; omega)) expr2)
      all_goals simp
    | printStmt expr1 =>
      cases b <;> simp only [nodeEq, structEq]
      case printStmt expr2 =>
        exact (ih expr1 expr2 (by simp at h; omega))
      all_goals simp
    | assignment location1 value1 =>
      cases b <;> simp only [nodeEq, structEq]
      case assignment location2 value2 =>
        simp only [Bool.and_eq_true, beq_iff_eq, and_assoc]
        exact (and_congr (ih location1 location2 (by simp at h; omega)) (ih value1 value2 (by simp at h; omega)))
      all_goals simp
    | expressionB =>
      cases b <;> simp only [nodeEq, structEq] <;> simp [optStrEq_iff]
    | binOper oper1 left1 right1 =>
      cases b <;> simp only [nodeEq, structEq]
      case binOper oper2 left2 right2 =>
        simp only [Bool.and_eq_true, beq_iff_eq, and_assoc]
        exact (and_congr Iff.rfl (and_congr (ih left1 left2 (by simp at h; omega)) (ih right1 right2 (by simp at h; omega))))
      all_goals simp
    | unaryOper oper1 expr1 =>
      cases b <;> simp only [nodeEq, structEq]
      case unaryOper oper2 expr2 =>
        simp only [Bool.and_eq_true, beq_iff_eq, and_assoc]
        exact (and_congr Iff.rfl (ih expr1 expr2 (by simp at h; omega)))
      all_goals simp
    | literal value1 ty1 =>
      cases b <;> simp only [nodeEq, structEq] <;> simp [optStrEq_iff]
    | integer value1 ty1 =>
      cases b <;> simp only [nodeEq, structEq] <;> simp [optStrEq_iff]
    | float value1 ty1 =>
      cases b <;> simp only [nodeEq, structEq] <;> simp [optStrEq_iff]
    | boolean value1 ty1 =>
      cases b <;> simp only [nodeEq, structEq] <;> simp [optStrEq_iff]
    | char value1 ty1 =>
      cases b <;> simp only [nodeEq, structEq] <;> simp [optStrEq_iff]
    | string value1 ty1 =>
      cases b <;> simp only [nodeEq, structEq] <;> simp [optStrEq_iff]
    | preInc expr1 =>
      cases b <;> simp only [nodeEq, structEq]
      case preInc expr2 =>
        exact (ih expr1 expr2 (by simp at h; omega))
      all_goals simp
    | preDec expr1 =>
      cases b <;> simp only [nodeEq, structEq]
      case preDec expr2 =>
        exact (ih expr1 expr2 (by simp at h; omega))
      all_goals simp
    | postInc expr1 =>
      cases b <;> simp only [nodeEq, structEq]
      case postInc expr2 =>
        exact (ih expr1 expr2 (by simp at h; omega))
      all_goals simp
    | postDec expr1 =>
      cases b <;> simp only [nodeEq, structEq]
      case postDec expr2 =>
        exact (ih expr1 expr2 (by simp at h; omega))
      all_goals simp
    | funcCall name1 args1 =>
      cases b <;> simp only [nodeEq, structEq]
      case funcCall name2 args2 =>
        simp only [Bool.and_eq_true, beq_iff_eq, and_assoc]
        exact (and_congr Iff.rfl (nodesEq_iff_of args1 (fun a ha b => ih a b (by have hm := sizeOf_lt_of_mem_node ha; simp at h; omega)) args2))
      all_goals simp
    | locationB =>
      cases b <;> simp only [nodeEq, structEq] <;> simp [optStrEq_iff]
    | varLoc name1 =>
      cases b <;> simp only [nodeEq, structEq] <;> simp [optStrEq_iff]
    | arrayLoc name1 indices1 =>
      cases b <;> simp only [nodeEq, structEq]
      case arrayLoc name2 indices2 =>
        simp only [Bool.and_eq_true, beq_iff_eq, and_assoc]
        exact (and_congr Iff.rfl (nodesEq_iff_of indices1 (fun a ha b => ih a b (by have hm := sizeOf_lt_of_mem_node ha; simp at h; omega)) indices2))
      all_goals simp

/-- Python value equality is reflexive. -/
theorem pyEq_refl (v : PyVal) : pyEq v v = true := by
  cases v <;> simp [pyEq]

/-- Reflexivity step for list fields. -/
theorem structEqs_refl_of (as : List Node) (ihn : ∀ a ∈ as, structEq a a) :
    structEqs as as := by
  induction as with
  | nil => simp [structEqs]
  | cons a as ihl =>
    simp only [structEqs]
    exact ⟨ihn a (by simp), ihl (fun a ha => ihn a (by simp [ha]))⟩

/-- Reflexivity step for optional child fields. -/
theorem structEqOpt_refl_of (v : Option Node) (ihn : ∀ a, v = some a → structEq a a) :
    structEqOpt v v := by
  cases v with
  | none => simp [structEqOpt]
  | some a => simpa only [structEqOpt] using ihn a rfl

/-- Structural equality is reflexive, by strong induction on node size. -/
theorem structEq_refl_aux : ∀ (k : Nat) (a : Node), sizeOf a < k → structEq a a := by
  intro k
  induction k with
  | zero => intro a h; exact absurd h (Nat.not_lt_zero _)
  | succ k ih =>
    intro a h
    cases a with
    | program body1 =>
      simp only [structEq, pyEq_refl, eq_self_iff_true, true_and, and_true]
      exact structEqs_refl_of body1 (fun a ha => ih a (by have hm := sizeOf_lt_of_mem_node ha; simp at h; omega))
    | declarationB =>
      simp [structEq, pyEq_refl]
    | varDecl name1 ty1 value1 =>
      simp only [structEq, pyEq_refl, eq_self_iff_true, true_and, and_true]
      exact ⟨ih ty1 (by simp at h; omega), structEqOpt_refl_of value1 (fun a ha => ih a (by subst ha; simp at h; omega))⟩
    | arrayDecl name1 ty1 dimensions1 value1 =>
      simp only [structEq, pyEq_refl, eq_self_iff_true, true_and, and_true]
      exact ⟨ih ty1 (by simp at h; omega), structEqs_refl_of dimensions1 (fun a ha => ih a (by have hm := sizeOf_lt_of_mem_node ha; simp at h; omega)), structEqOpt_refl_of value1 (fun a ha => ih a (by subst ha; simp at h; omega))⟩
    | funcDecl name1 returnType1 params1 body1 =>
      simp only [structEq, pyEq_refl, eq_self_iff_true, true_and, and_true]
      exact ⟨ih returnType1 (by simp at h; omega), structEqs_refl_of params1 (fun a ha => ih a (by have hm := sizeOf_lt_of_mem_node ha; simp at h; omega)), structEqs_refl_of body1 (fun a ha => ih a (by have hm := sizeOf_lt_of_mem_node ha; simp at h; omega))⟩
    | varParm name1 ty1 =>
      simp only [structEq, pyEq_refl, eq_self_iff_true, true_and, and_true]
      exact ih ty1 (by simp at h; omega)
    | arrayParm name1 ty1 dimensions1 =>
      simp only [structEq, pyEq_refl, eq_self_iff_true, true_and, and_true]
      exact ⟨ih ty1 (by simp at h; omega), structEqs_refl_of dimensions1 (fun a ha => ih a (by have hm := sizeOf_lt_of_mem_node ha; simp at h; omega))⟩
    | statementB =>
      simp [structEq, pyEq_refl]
    | ifStmt condition1 thenStmt1 elseStmt1 =>
      simp only [structEq, pyEq_refl, eq_self_iff_true, true_and, and_true]
      exact ⟨ih condition1 (by simp at h; omega), ih thenStmt1 (by simp at h; omega), structEqOpt_refl_of elseStmt1 (fun a ha => ih a (by subst ha; simp at h; omega))⟩
    | whileStmt condition1 body1 =>
      simp only [structEq, pyEq_refl, eq_self_iff_true, true_and, and_true]
      exact ⟨ih condition1 (by simp at h; omega), ih body1 (by simp at h; omega)⟩
    | doWhileStmt body1 condition1 =>
      simp only [structEq, pyEq_refl, eq_self_iff_true, true_and, and_true]
      exact ⟨ih body1 (by simp at h; omega), ih condition1 (by simp at h; omega)⟩
    | forStmt init1 condition1 update1 body1 =>
      simp only [structEq, pyEq_refl, eq_self_iff_true, true_and, and_true]
      exact ⟨ih init1 (by simp at h; omega), ih condition1 (by simp at h; omega), ih update1 (by simp at h; omega), ih body1 (by simp at h; omega)⟩
    | returnStmt expr1 =>
      simp only [structEq, pyEq_refl, eq_self_iff_true, true_and, and_true]
      exact structEqOpt_refl_of expr1 (fun a ha => ih a (by subst ha; simp at h; omega))
    | printStmt expr1 =>
      simp only [structEq, pyEq_refl, eq_self_iff_true, true_and, and_true]
      exact ih expr1 (by simp at h; omega)
    | assignment location1 value1 =>
      simp only [structEq, pyEq_refl, eq_self_iff_true, true_and, and_true]
      exact ⟨ih location1 (by simp at h; omega), ih value1 (by simp at h; omega)⟩
    | expressionB =>
      simp [structEq, pyEq_refl]
    | binOper oper1 left1 right1 =>
      simp only [structEq, pyEq_refl, eq_self_iff_true, true_and, and_true]
      exact ⟨ih left1 (by simp at h; omega), ih right1 (by simp at h; omega)⟩
    | unaryOper oper1 expr1 =>
      simp only [structEq, pyEq_refl, eq_self_iff_true, true_and, and_true]
      exact ih expr1 (by simp at h; omega)
    | literal value1 ty1 =>
      simp [structEq, pyEq_refl]
    | integer value1 ty1 =>
      simp [structEq, pyEq_refl]
    | float value1 ty1 =>
      simp [structEq, pyEq_refl]
    | boolean value1 ty1 =>
      simp [structEq, pyEq_refl]
    | char value1 ty1 =>
      simp [structEq, pyEq_refl]
    | string value1 ty1 =>
      simp [structEq, pyEq_refl]
    | preInc expr1 =>
      simp only [structEq, pyEq_refl, eq_self_iff_true, true_and, and_true]
      exact ih expr1 (by simp at h; omega)
    | preDec expr1 =>
      simp only [structEq, pyEq_refl, eq_self_iff_true, true_and, and_true]
      exact ih expr1 (by simp at h; omega)
    | postInc expr1 =>
      simp only [structEq, pyEq_refl, eq_self_iff_true, true_and, and_true]
      exact ih expr1 (by simp at h; omega)
    | postDec expr1 =>
      simp only [structEq, pyEq_refl, eq_self_iff_true, true_and, and_true]
      exact ih expr1 (by simp at h; omega)
    | funcCall name1 args1 =>
      simp only [structEq, pyEq_refl, eq_self_iff_true, true_and, and_true]
      exact structEqs_refl_of args1 (fun a ha => ih a (by have hm := sizeOf_lt_of_mem_node ha; simp at h; omega))
    | locationB =>
      simp [structEq, pyEq_refl]
    | varLoc name1 =>
      simp [structEq, pyEq_refl]
    | arrayLoc name1 indices1 =>
      simp only [structEq, pyEq_refl, eq_self_iff_true, true_and, and_true]
      exact structEqs_refl_of indices1 (fun a ha => ih a (by have hm := sizeOf_lt_of_mem_node ha; simp at h; omega))

/-- C5: equality on AST nodes is structural — the dataclass-generated
equality holds between two nodes exactly when they are the same variant
with corresponding fields recursively equal, and, nodes carrying no
identity beyond their structure, any node (hence any independently
constructed node with the same fields) is equal to itself. -/
theorem nodeEq_is_structural :
    (∀ a b : Node, nodeEq a b = true ↔ structEq a b) ∧
    (∀ a : Node, nodeEq a a = true) :=
  ⟨fun a b => nodeEq_iff_aux (sizeOf a + 1) a b (Nat.lt_succ_self _),
   fun a => (nodeEq_iff_aux (sizeOf a + 1) a a (Nat.lt_succ_self _)).mpr
     (structEq_refl_aux (sizeOf a + 1) a (Nat.lt_succ_self _))⟩

/-- Display tree built by `pretty()`: a `rich.Tree` is a label with an
ordered list of child trees. -/
inductive RTree where
  | node (label : String) (children : List RTree)

/-- Python `str()` of a primitive field value as it appears in a leaf
label (`True`/`False`/`None` capitalization follows Python). -/
def pyStr : PyVal → String
  | .vInt n => toString n
  | .vBool true => "True"
  | .vBool false => "False"
  | .vFloat tok => tok
  | .vStr s => s
  | .vNone => "None"

/-- Display form of the optional `type` tag: the tag string, or `None`. -/
def optTagStr : Option String → String
  | some s => s
  | none => "None"

/-- Root label of a node: the f-string on `model.py` line 417. -/
def classLabel (cn : String) : String := "[bold blue]" ++ cn ++ "[/bold blue]"

/-- Label of a child slot holding a node (`model.py` line 423). -/
def keyLabel (key : String) : String := "[green]" ++ key ++ ":[/green]"

/-- Label of a leaf slot holding a primitive value (lines 431 and 434). -/
def leafLabel (key val : String) : String := "[green]" ++ key ++ ":[/green] " ++ val

/-- Label of the i-th element slot of a node list (`model.py` line 428). -/
def idxLabel (key : String) (i : Nat) : String :=
  "[green]" ++ key ++ "[" ++ toString i ++ "]:[/green]"

mutual

/-- Translation of the `pretty` method installed by `add_pretty_methods`
(`model.py` lines 410-436): walk the fields of the node in declaration
order, building the display tree. The embedding threads the node through
the call and returns the post-call node alongside the tree: attribute
reads keep the field, and since the method body contains no attribute
assignment, every field position is rebuilt from what the recursive calls
return. -/
def prettyNode : Node → RTree × Node
  | .program body1 =>
      let p_body := prettyListField "body" body1
      (RTree.node (classLabel "Program") (p_body.1), .program p_body.2)
  | .declarationB =>
      (RTree.node (classLabel "Declaration") ([]), .declarationB)
  | .varDecl name1 ty1 value1 =>
      let p_ty := prettyNode ty1
      let p_value := prettyOpt "value" value1
      (RTree.node (classLabel "VarDecl") ([RTree.node (leafLabel "name" name1) [], RTree.node (keyLabel "type") [p_ty.1], p_value.1]), .varDecl name1 p_ty.2 p_value.2)
  | .arrayDecl name1 ty1 dimensions1 value1 =>
      let p_ty := prettyNode ty1
      let p_dimensions := prettyListField "dimensions" dimensions1
      let p_value := prettyOpt "value" value1
      (RTree.node (classLabel "ArrayDecl") ([RTree.node (leafLabel "name" name1) [], RTree.node (keyLabel "type") [p_ty.1]] ++ p_dimensions.1 ++ [p_value.1]), .arrayDecl name1 p_ty.2 p_dimensions.2 p_value.2)
  | .funcDecl name1 returnType1 params1 body1 =>
      let p_returnType := prettyNode returnType1
      let p_params := prettyListField "params" params1
      let p_body := prettyListField "body" body1
      (RTree.node (classLabel "FuncDecl") ([RTree.node (leafLabel "name" name1) [], RTree.node (keyLabel "return_type") [p_returnType.1]] ++ p_params.1 ++ p_body.1), .funcDecl name1 p_returnType.2 p_params.2 p_body.2)
  | .varParm name1 ty1 =>
      let p_ty := prettyNode ty1
      (RTree.node (classLabel "VarParm") ([RTree.node (leafLabel "name" name1) [], RTree.node (keyLabel "type") [p_ty.1]]), .varParm name1 p_ty.2)
  | .arrayParm name1 ty1 dimensions1 =>
      let p_ty := prettyNode ty1
      let p_dimensions := prettyListField "dimensions" dimensions1
      (RTree.node (classLabel "ArrayParm") ([RTree.node (leafLabel "name" name1) [], RTree.node (keyLabel "type") [p_ty.1]] ++ p_dimensions.1), .arrayParm name1 p_ty.2 p_dimensions.2)
  | .statementB =>
      (RTree.node (classLabel "Statement") ([]), .statementB)
  | .ifStmt condition1 thenStmt1 elseStmt1 =>
      let p_condition := prettyNode condition1
      let p_thenStmt := prettyNode thenStmt1
      let p_elseStmt := prettyOpt "else_stmt" elseStmt1
      (RTree.node (classLabel "IfStmt") ([RTree.node (keyLabel "condition") [p_condition.1], RTree.node (keyLabel "then_stmt") [p_thenStmt.1], p_elseStmt.1]), .ifStmt p_condition.2 p_thenStmt.2 p_elseStmt.2)
  | .whileStmt condition1 body1 =>
      let p_condition := prettyNode condition1
      let p_body := prettyNode body1
      (RTree.node (classLabel "WhileStmt") ([RTree.node (keyLabel "condition") [p_condition.1], RTree.node (keyLabel "body") [p_body.1]]), .whileStmt p_condition.2 p_body.2)
  | .doWhileStmt body1 condition1 =>
      let p_body := prettyNode body1
      let p_condition := prettyNode condition1
      (RTree.node (classLabel "DoWhileStmt") ([RTree.node (keyLabel "body") [p_body.1], RTree.node (keyLabel "condition") [p_condition.1]]), .doWhileStmt p_body.2 p_condition.2)
  | .forStmt init1 condition1 update1 body1 =>
      let p_init := prettyNode init1
      let p_condition := prettyNode condition1
      let p_update := prettyNode update1
      let p_body := prettyNode body1
      (RTree.node (classLabel "ForStmt") ([RTree.node (keyLabel "init") [p_init.1], RTree.node (keyLabel "condition") [p_condition.1], RTree.node (keyLabel "update") [p_update.1], RTree.node (keyLabel "body") [p_body.1]]), .forStmt p_init.2 p_condition.2 p_update.2 p_body.2)
  | .returnStmt expr1 =>
      let p_expr := prettyOpt "expr" expr1
      (RTree.node (classLabel "ReturnStmt") ([p_expr.1]), .returnStmt p_expr.2)
  | .printStmt expr1 =>
      let p_expr := prettyNode expr1
      (RTree.node (classLabel "PrintStmt") ([RTree.node (keyLabel "expr") [p_expr.1]]), .printStmt p_expr.2)
  | .assignment location1 value1 =>
      let p_location := prettyNode location1
      let p_value := prettyNode value1
      (RTree.node (classLabel "Assignment") ([RTree.node (keyLabel "location") [p_location.1], RTree.node (keyLabel "value") [p_value.1]]), .assignment p_location.2 p_value.2)
  | .expressionB =>
      (RTree.node (classLabel "Expression") ([]), .expressionB)
  | .binOper oper1 left1 right1 =>
      let p_left := prettyNode left1
      let p_right := prettyNode right1
      (RTree.node (classLabel "BinOper") ([RTree.node (leafLabel "oper" oper1) [], RTree.node (keyLabel "left") [p_left.1], RTree.node (keyLabel "right") [p_right.1]]), .binOper oper1 p_left.2 p_right.2)
  | .unaryOper oper1 expr1 =>
      let p_expr := prettyNode expr1
      (RTree.node (classLabel "UnaryOper") ([RTree.node (leafLabel "oper" oper1) [], RTree.node (keyLabel "expr") [p_expr.1]]), .unaryOper oper1 p_expr.2)
  | .literal value1 ty1 =>
      (RTree.node (classLabel "Literal") ([RTree.node (leafLabel "value" (pyStr value1)) [], RTree.node (leafLabel "type" (optTagStr ty1)) []]), .literal value1 ty1)
  | .integer value1 ty1 =>
      (RTree.node (classLabel "Integer") ([RTree.node (leafLabel "value" (pyStr value1)) [], RTree.node (leafLabel "type" (optTagStr ty1)) []]), .integer value1 ty1)
  | .float value1 ty1 =>
      (RTree.node (classLabel "Float") ([RTree.node (leafLabel "value" (pyStr value1)) [], RTree.node (leafLabel "type" (optTagStr ty1)) []]), .float value1 ty1)
  | .boolean value1 ty1 =>
      (RTree.node (classLabel "Boolean") ([RTree.node (leafLabel "value" (pyStr value1)) [], RTree.node (leafLabel "type" (optTagStr ty1)) []]), .boolean value1 ty1)
  | .char value1 ty1 =>
      (RTree.node (classLabel "Char") ([RTree.node (leafLabel "value" (pyStr value1)) [], RTree.node (leafLabel "type" (optTagStr ty1)) []]), .char value1 ty1)
  | .string value1 ty1 =>
      (RTree.node (classLabel "String") ([RTree.node (leafLabel "value" (pyStr value1)) [], RTree.node (leafLabel "type" (optTagStr ty1)) []]), .string value1 ty1)
  | .preInc expr1 =>
      let p_expr := prettyNode expr1
      (RTree.node (classLabel "PreInc") ([RTree.node (keyLabel "expr") [p_expr.1]]), .preInc p_expr.2)
  | .preDec expr1 =>
      let p_expr := prettyNode expr1
      (RTree.node (classLabel "PreDec") ([RTree.node (keyLabel "expr") [p_expr.1]]), .preDec p_expr.2)
  | .postInc expr1 =>
      let p_expr := prettyNode expr1
      (RTree.node (classLabel "PostInc") ([RTree.node (keyLabel "expr") [p_expr.1]]), .postInc p_expr.2)
  | .postDec expr1 =>
      let p_expr := prettyNode expr1
      (RTree.node (classLabel "PostDec") ([RTree.node (keyLabel "expr") [p_expr.1]]), .postDec p_expr.2)
  | .funcCall name1 args1 =>
      let p_args := prettyListField "args" args1
      (RTree.node (classLabel "FuncCall") ([RTree.node (leafLabel "name" name1) []] ++ p_args.1), .funcCall name1 p_args.2)
  | .locationB =>
      (RTree.node (classLabel "Location") ([]), .locationB)
  | .varLoc name1 =>
      (RTree.node (classLabel "VarLoc") ([RTree.node (leafLabel "name" name1) []]), .varLoc name1)
  | .arrayLoc name1 indices1 =>
      let p_indices := prettyListField "indices" indices1
      (RTree.node (classLabel "ArrayLoc") ([RTree.node (leafLabel "name" name1) []] ++ p_indices.1), .arrayLoc name1 p_indices.2)

/-- Field dispatch for an optional child: a `None`-valued attribute is
printed as a primitive leaf, a node recursively (`model.py` lines 422-423
and 432-434). -/
def prettyOpt (key : String) : Option Node → RTree × Option Node
  | some v =>
      let p := prettyNode v
      (RTree.node (keyLabel key) [p.1], some p.2)
  | none => (RTree.node (leafLabel key "None") [], none)

/-- Field dispatch for a list-valued attribute (`model.py` lines 425-431):
an empty list falls to the primitive branch and prints as one leaf child
labelled with Python `str([])`; a non-empty list of nodes contributes one
indexed child per element. -/
def prettyListField (key : String) : List Node → List RTree × List Node
  | [] => ([RTree.node (leafLabel key "[]") []], [])
  | x :: xs =>
      let p := prettyNode x
      let ps := prettyList key 1 xs
      (RTree.node (idxLabel key 0) [p.1] :: ps.1, p.2 :: ps.2)

/-- Indexed traversal of the tail of a node list, continuing the
enumeration of `model.py` line 427. -/
def prettyList (key : String) (i : Nat) : List Node → List RTree × List Node
  | [] => ([], [])
  | x :: xs =>
      let p := prettyNode x
      let ps := prettyList key (i + 1) xs
      (RTree.node (idxLabel key i) [p.1] :: ps.1, p.2 :: ps.2)

end

/-- Tail traversal preserves the list when each member is preserved. -/
theorem prettyList_preserves_of (key : String) (as : List Node)
    (ihn : ∀ a ∈ as, (prettyNode a).2 = a) :
    ∀ i, (prettyList key i as).2 = as := by
  induction as with
  | nil => intro i; simp [prettyList]
  | cons a as ihl =>
    intro i
    simp only [prettyList]
    rw [ihn a (by simp), ihl (fun a ha => ihn a (by simp [ha])) (i + 1)]

/-- Field traversal of a node list preserves the list. -/
theorem prettyListField_preserves_of (key : String) (as : List Node)
    (ihn : ∀ a ∈ as, (prettyNode a).2 = a) :
    (prettyListField key as).2 = as := by
  cases as with
  | nil => simp [prettyListField]
  | cons a as =>
    simp only [prettyListField]
    rw [ihn a (by simp), prettyList_preserves_of key as (fun a ha => ihn a (by simp [ha])) 1]

/-- Field traversal of an optional child preserves it. -/
theorem prettyOpt_preserves_of (key : String) (v : Option Node)
    (ihn : ∀ a, v = some a → (prettyNode a).2 = a) :
    (prettyOpt key v).2 = v := by
  cases v with
  | none => simp [prettyOpt]
  | some a =>
    simp only [prettyOpt]
    rw [ihn a rfl]

/-- Main induction: the pretty traversal returns the node it was called on
unchanged, by strong induction on node size. -/
theorem prettyNode_preserves_aux :
    ∀ (k : Nat) (a : Node), sizeOf a < k → (prettyNode a).2 = a := by
  intro k
  induction k with
  | zero => intro a h; exact absurd h (Nat.not_lt_zero _)
  | succ k ih =>
    intro a h
    cases a with
    | program body1 =>
      simp only [prettyNode]
      rw [prettyListField_preserves_of "body" body1 (fun a ha => ih a (by have hm := sizeOf_lt_of_mem_node ha; simp at h; omega))]
    | declarationB =>
      simp [prettyNode]
    | varDecl name1 ty1 value1 =>
      simp only [prettyNode]
      rw [ih ty1 (by simp at h; omega),
          prettyOpt_preserves_of "value" value1 (fun a ha => ih a (by subst ha; simp at h; omega))]
    | arrayDecl name1 ty1 dimensions1 value1 =>
      simp only [prettyNode]
      rw [ih ty1 (by simp at h; omega),
          prettyListField_preserves_of "dimensions" dimensions1 (fun a ha => ih a (by have hm := sizeOf_lt_of_mem_node ha; simp at h; omega)),
          prettyOpt_preserves_of "value" value1 (fun a ha => ih a (by subst ha; simp at h; omega))]
    | funcDecl name1 returnType1 params1 body1 =>
      simp only [prettyNode]
      rw [ih returnType1 (by simp at h; omega),
          prettyListField_preserves_of "params" params1 (fun a ha => ih a (by have hm := sizeOf_lt_of_mem_node ha; simp at h; omega)),
          prettyListField_preserves_of "body" body1 (fun a ha => ih a (by have hm := sizeOf_lt_of_mem_node ha; simp at h; omega))]
    | varParm name1 ty1 =>
      simp only [prettyNode]
      rw [ih ty1 (by simp at h; omega)]
    | arrayParm name1 ty1 dimensions1 =>
      simp only [prettyNode]
      rw [ih ty1 (by simp at h; omega),
          prettyListField_preserves_of "dimensions" dimensions1 (fun a ha => ih a (by have hm := sizeOf_lt_of_mem_node ha; simp at h; omega))]
    | statementB =>
      simp [prettyNode]
    | ifStmt condition1 thenStmt1 elseStmt1 =>
      simp only [prettyNode]
      rw [ih condition1 (by simp at h; omega),
          ih thenStmt1 (by simp at h; omega),
          prettyOpt_preserves_of "else_stmt" elseStmt1 (fun a ha => ih a (by subst ha; simp at h; omega))]
    | whileStmt condition1 body1 =>
      simp only [prettyNode]
      rw [ih condition1 (by simp at h; omega),
          ih body1 (by simp at h; omega)]
    | doWhileStmt body1 condition1 =>
      simp only [prettyNode]
      rw [ih body1 (by simp at h; omega),
          ih condition1 (by simp at h; omega)]
    | forStmt init1 condition1 update1 body1 =>
      simp only [prettyNode]
      rw [ih init1 (by simp at h; omega),
          ih condition1 (by simp at h; omega),
          ih update1 (by simp at h; omega),
          ih body1 (by simp at h; omega)]
    | returnStmt expr1 =>
      simp only [prettyNode]
      rw [prettyOpt_preserves_of "expr" expr1 (fun a ha => ih a (by subst ha; simp at h; omega))]
    | printStmt expr1 =>
      simp only [prettyNode]
      rw [ih expr1 (by simp at h; omega)]
    | assignment location1 value1 =>
      simp only [prettyNode]
      rw [ih location1 (by simp at h; omega),
          ih value1 (by simp at h; omega)]
    | expressionB =>
      simp [prettyNode]
    | binOper oper1 left1 right1 =>
      simp only [prettyNode]
      rw [ih left1 (by simp at h; omega),
          ih right1 (by simp at h; omega)]
    | unaryOper oper1 expr1 =>
      simp only [prettyNode]
      rw [ih expr1 (by simp at h; omega)]
    | literal value1 ty1 =>
      simp [prettyNode]
    | integer value1 ty1 =>
      simp [prettyNode]
    | float value1 ty1 =>
      simp [prettyNode]
    | boolean value1 ty1 =>
      simp [prettyNode]
    | char value1 ty1 =>
      simp [prettyNode]
    | string value1 ty1 =>
      simp [prettyNode]
    | preInc expr1 =>
      simp only [prettyNode]
      rw [ih expr1 (by simp at h; omega)]
    | preDec expr1 =>
      simp only [prettyNode]
      rw [ih expr1 (by simp at h; omega)]
    | postInc expr1 =>
      simp only [prettyNode]
      rw [ih expr1 (by simp at h; omega)]
    | postDec expr1 =>
      simp only [prettyNode]
      rw [ih expr1 (by simp at h; omega)]
    | funcCall name1 args1 =>
      simp only [prettyNode]
      rw [prettyListField_preserves_of "args" args1 (fun a ha => ih a (by have hm := sizeOf_lt_of_mem_node ha; simp at h; omega))]
    | locationB =>
      simp [prettyNode]
    | varLoc name1 =>
      simp [prettyNode]
    | arrayLoc name1 indices1 =>
      simp only [prettyNode]
      rw [prettyListField_preserves_of "indices" indices1 (fun a ha => ih a (by have hm := sizeOf_lt_of_mem_node ha; simp at h; omega))]

/-- Every pretty traversal preserves the node. -/
theorem prettyNode_preserves (a : Node) : (prettyNode a).2 = a :=
  prettyNode_preserves_aux (sizeOf a + 1) a (Nat.lt_succ_self _)

/-- C8: the pretty-printing operation is a read-only traversal — calling
it on any AST node returns a display tree while the node and all its
descendants keep every field unchanged (the post-call node is the original
node). -/
theorem pretty_is_read_only : ∀ a : Node, (prettyNode a).2 = a :=
  fun a => prettyNode_preserves a

/-- Iterated application of the post-construction node
operation: `pretty` is the only method of `model.py` that operates on a
finished node (`accept` merely delegates to an external visitor and
touches nothing itself), so the life of a node inside the component is a
sequence of pretty traversals. -/
def applyPrettyOps : Nat → Node → Node
  | 0, a => a
  | k + 1, a => applyPrettyOps k (prettyNode a).2

/-- C4: AST nodes are immutable after construction — after any number of
component operations a node still equals the value fixed at construction,
hence every field observed at any later point equals its construction-time
value. -/
theorem nodes_immutable : ∀ (k : Nat) (a : Node), applyPrettyOps k a = a := by
  intro k
  induction k with
  | zero => intro a; rfl
  | succ k ih =>
    intro a
    rw [applyPrettyOps, prettyNode_preserves a]
    exact ih a

/-- Constructor of `PreInc` (`model.py` lines 238-245): a dataclass with
the single field `expr : Expression`, a generated `__init__` and no
`__post_init__` or other validation, so construction never fails and
stores the operand exactly as given. The `Option` result records whether
construction raised. -/
def PreInc.make (e : Node) : Option Node := some (.preInc e)

/-- Constructor of `PreDec` (`model.py` lines 247-251), identical shape. -/
def PreDec.make (e : Node) : Option Node := some (.preDec e)

/-- Constructor of `PostInc` (`model.py` lines 253-257), identical shape. -/
def PostInc.make (e : Node) : Option Node := some (.postInc e)

/-- Constructor of `PostDec` (`model.py` lines 259-263), identical shape. -/
def PostDec.make (e : Node) : Option Node := some (.postDec e)

/-- Membership in the `Location` family of `model.py`: instances of
`Location` itself or of its subclasses `VarLoc` and `ArrayLoc`. -/
def Node.isLocation : Node → Bool
  | .locationB => true
  | .varLoc _ => true
  | .arrayLoc _ _ => true
  | _ => false

/-- C2 counterexample: constructing `PreInc` on the literal node
`Integer(5)` — which is not a `Location` — succeeds and silently produces
a node, contradicting the claim that building an increment node with a
non-Location operand fails at build time. -/
theorem preInc_accepts_integer_operand :
    PreInc.make (.integer (.vInt 5) (some "integer")) =
      some (.preInc (.integer (.vInt 5) (some "integer"))) ∧
    Node.isLocation (.integer (.vInt 5) (some "integer")) = false :=
  ⟨rfl, rfl⟩

/-- C2 amended: the `PreInc`, `PreDec`, `PostInc` and `PostDec` node
classes perform no validation of their operand — construction succeeds for
every expression operand, Location or not, and stores the operand verbatim
in the `expr` field; any Location restriction is a responsibility of the parser,
not of the node model. -/
theorem incdec_construction_unchecked : ∀ e : Node,
    PreInc.make e = some (.preInc e) ∧ PreDec.make e = some (.preDec e) ∧
    PostInc.make e = some (.postInc e) ∧ PostDec.make e = some (.postDec e) :=
  fun _ => ⟨rfl, rfl, rfl, rfl⟩

/-- Diagnostic record: severity, message and source position, as the spec
describes the elements of the diagnostics sequence. -/
structure Diagnostic where
  severity : String
  message : String
  line : Nat
  column : Nat

/-- Outcome of a parse invocation: an optional AST root and the list of
collected diagnostics. `test_parser.py` observes exactly this shape
(`ast = parse_string(source); if ast: ... else: ...`). -/
structure ParseResult where
  ast : Option Node
  diagnostics : List Diagnostic

/-- Modelled from the spec: the parser itself (`parser.py`) is not under
`src/`; only its caller `test_parser.py` is, so the return
convention of the parse driver is modelled from the spec. Per the spec, the parser makes a
single pass collecting diagnostics; a successful parse (no diagnostics
collected) returns the built `Program` node and an empty diagnostics list,
while a failed parse returns no AST together with all diagnostics
collected so far. -/
def parseReturn (collected : List Diagnostic) (root : Node) : ParseResult :=
  if collected.isEmpty then { ast := some root, diagnostics := [] }
  else { ast := none, diagnostics := collected }

/-- C3: a parse invocation returns either an AST root or a non-empty
sequence of diagnostics, never neither — success yields a `Program` root
with an empty diagnostics list, failure yields no AST with all collected
diagnostics. -/
theorem parse_returns_ast_or_diagnostics :
    ∀ (collected : List Diagnostic) (root : Node),
      ((parseReturn collected root).ast = some root ∧
        (parseReturn collected root).diagnostics = []) ∨
      ((parseReturn collected root).ast = none ∧
        (parseReturn collected root).diagnostics = collected ∧
        (parseReturn collected root).diagnostics ≠ []) := by
  intro collected root
  cases collected with
  | nil => left; exact ⟨rfl, rfl⟩
  | cons d ds => right; exact ⟨rfl, rfl, by simp [parseReturn]⟩

/-- Heap of Python list objects. Python lists are mutable objects with
identity; a list-valued node field stores a reference to such an object.
The heap makes the identity explicit: a reference is an index into the
cell sequence. -/
structure ListHeap where
  cells : List (List Node)

/-- Read a heap cell by index. -/
def cellsGet : List (List Node) → Nat → List Node
  | [], _ => []
  | c :: _, 0 => c
  | _ :: cs, n + 1 => cellsGet cs n

/-- Replace a heap cell by index. -/
def cellsSet : List (List Node) → Nat → List Node → List (List Node)
  | [], _, _ => []
  | _ :: cs, 0, v => v :: cs
  | c :: cs, n + 1, v => c :: cellsSet cs n v

/-- The `list()` call a `default_factory=list` field performs on each
construction without an explicit argument: allocate a fresh empty list
object and return its reference. -/
def ListHeap.alloc (h : ListHeap) : Nat × ListHeap :=
  (h.cells.length, ⟨h.cells ++ [[]]⟩)

/-- Dereference a list field. -/
def ListHeap.get (h : ListHeap) (r : Nat) : List Node := cellsGet h.cells r

/-- Python `list.append` on the referenced list object: mutates that cell
in place. -/
def ListHeap.push (h : ListHeap) (r : Nat) (x : Node) : ListHeap :=
  ⟨cellsSet h.cells r (cellsGet h.cells r ++ [x])⟩

/-- A `Program` object as constructed without arguments: only the
reference its `body` field holds (`model.py` line 75). -/
structure ProgramObj where
  bodyRef : Nat

/-- A `FuncCall` object constructed without an `args` argument
(`model.py` lines 376-377). -/
structure FuncCallObj where
  name : String
  argsRef : Nat

/-- An `ArrayLoc` object constructed without an `indices` argument
(`model.py` lines 394-395). -/
structure ArrayLocObj where
  name : String
  indicesRef : Nat

/-- Constructing `Program()` without a body argument: the generated
`__init__` calls the `default_factory`, allocating a fresh empty list. -/
def Program.makeDefault (h : ListHeap) : ProgramObj × ListHeap :=
  ((⟨(h.alloc).1⟩ : ProgramObj), (h.alloc).2)

/-- Constructing `FuncCall(name)` without an args argument. -/
def FuncCall.makeDefault (nm : String) (h : ListHeap) : FuncCallObj × ListHeap :=
  ((⟨nm, (h.alloc).1⟩ : FuncCallObj), (h.alloc).2)

/-- Constructing `ArrayLoc(name)` without an indices argument. -/
def ArrayLoc.makeDefault (nm : String) (h : ListHeap) : ArrayLocObj × ListHeap :=
  ((⟨nm, (h.alloc).1⟩ : ArrayLocObj), (h.alloc).2)

/-- Scenario for the freshness claim: from an arbitrary heap, construct a
`Program`, a `FuncCall` and an `ArrayLoc`, each with its list field
defaulted, and return the three objects and the final heap. -/
def threeDefaultNodes (h : ListHeap) (n1 n2 : String) :
    ProgramObj × FuncCallObj × ArrayLocObj × ListHeap :=
  let ph := Program.makeDefault h
  let fh := FuncCall.makeDefault n1 ph.2
  let ah := ArrayLoc.makeDefault n2 fh.2
  (ph.1, fh.1, ah.1, ah.2)

/-- Reading below an appended tail sees the original cells. -/
theorem cellsGet_append_left (cs ds : List (List Node)) (r : Nat)
    (hr : r < cs.length) : cellsGet (cs ++ ds) r = cellsGet cs r := by
  induction cs generalizing r with
  | nil => cases hr
  | cons c cs ih =>
    cases r with
    | zero => rfl
    | succ r => exact ih r (by simp at hr; omega)

/-- Reading the cell at the old length hits the first appended cell. -/
theorem cellsGet_at_length (cs : List (List Node)) (d : List Node)
    (ds : List (List Node)) : cellsGet (cs ++ d :: ds) cs.length = d := by
  induction cs with
  | nil => rfl
  | cons c cs ih => simpa using ih

/-- Writing one cell leaves every other cell unchanged. -/
theorem cellsGet_set_ne (cs : List (List Node)) (r r' : Nat) (v : List Node)
    (hne : r ≠ r') : cellsGet (cellsSet cs r v) r' = cellsGet cs r' := by
  induction cs generalizing r r' with
  | nil => rfl
  | cons c cs ih =>
    cases r with
    | zero =>
      cases r' with
      | zero => exact absurd rfl hne
      | succ r' => rfl
    | succ r =>
      cases r' with
      | zero => rfl
      | succ r' => exact ih r r' (fun hh => hne (by rw [hh]))

/-- Pushing through one reference does not change what any other
reference sees. -/
theorem push_get_ne (h : ListHeap) (r r' : Nat) (x : Node) (hne : r ≠ r') :
    (h.push r x).get r' = h.get r' := by
  simp only [ListHeap.push, ListHeap.get]
  exact cellsGet_set_ne h.cells r r' _ hne

/-- C7: nodes constructed without explicit list arguments each receive a
fresh empty list for their list-valued field — the three references are
pairwise distinct, each dereferences to the empty list, and appending
through any one of them leaves what the other two nodes see unchanged. -/
theorem default_factory_lists_fresh (h : ListHeap) (n1 n2 : String) (x : Node) :
    ((threeDefaultNodes h n1 n2).1.bodyRef ≠ (threeDefaultNodes h n1 n2).2.1.argsRef ∧
     (threeDefaultNodes h n1 n2).1.bodyRef ≠ (threeDefaultNodes h n1 n2).2.2.1.indicesRef ∧
     (threeDefaultNodes h n1 n2).2.1.argsRef ≠ (threeDefaultNodes h n1 n2).2.2.1.indicesRef) ∧
    ((threeDefaultNodes h n1 n2).2.2.2.get (threeDefaultNodes h n1 n2).1.bodyRef = [] ∧
     (threeDefaultNodes h n1 n2).2.2.2.get (threeDefaultNodes h n1 n2).2.1.argsRef = [] ∧
     (threeDefaultNodes h n1 n2).2.2.2.get (threeDefaultNodes h n1 n2).2.2.1.indicesRef = []) ∧
    (((threeDefaultNodes h n1 n2).2.2.2.push (threeDefaultNodes h n1 n2).1.bodyRef x).get (threeDefaultNodes h n1 n2).2.1.argsRef = (threeDefaultNodes h n1 n2).2.2.2.get (threeDefaultNodes h n1 n2).2.1.argsRef ∧
     ((threeDefaultNodes h n1 n2).2.2.2.push (threeDefaultNodes h n1 n2).1.bodyRef x).get (threeDefaultNodes h n1 n2).2.2.1.indicesRef = (threeDefaultNodes h n1 n2).2.2.2.get (threeDefaultNodes h n1 n2).2.2.1.indicesRef ∧
     ((threeDefaultNodes h n1 n2).2.2.2.push (threeDefaultNodes h n1 n2).2.1.argsRef x).get (threeDefaultNodes h n1 n2).1.bodyRef = (threeDefaultNodes h n1 n2).2.2.2.get (threeDefaultNodes h n1 n2).1.bodyRef ∧
     ((threeDefaultNodes h n1 n2).2.2.2.push (threeDefaultNodes h n1 n2).2.1.argsRef x).get (threeDefaultNodes h n1 n2).2.2.1.indicesRef = (threeDefaultNodes h n1 n2).2.2.2.get (threeDefaultNodes h n1 n2).2.2.1.indicesRef ∧
     ((threeDefaultNodes h n1 n2).2.2.2.push (threeDefaultNodes h n1 n2).2.2.1.indicesRef x).get (threeDefaultNodes h n1 n2).1.bodyRef = (threeDefaultNodes h n1 n2).2.2.2.get (threeDefaultNodes h n1 n2).1.bodyRef ∧
     ((threeDefaultNodes h n1 n2).2.2.2.push (threeDefaultNodes h n1 n2).2.2.1.indicesRef x).get (threeDefaultNodes h n1 n2).2.1.argsRef = (threeDefaultNodes h n1 n2).2.2.2.get (threeDefaultNodes h n1 n2).2.1.argsRef) := by
  have hP : (threeDefaultNodes h n1 n2).1.bodyRef = h.cells.length := rfl
  have hF : (threeDefaultNodes h n1 n2).2.1.argsRef = h.cells.length + 1 := by
    simp [threeDefaultNodes, Program.makeDefault, FuncCall.makeDefault, ListHeap.alloc]
  have hA : (threeDefaultNodes h n1 n2).2.2.1.indicesRef = h.cells.length + 2 := by
    simp [threeDefaultNodes, Program.makeDefault, FuncCall.makeDefault,
      ArrayLoc.makeDefault, ListHeap.alloc]
  have hH : (threeDefaultNodes h n1 n2).2.2.2 =
      ⟨((h.cells ++ [[]]) ++ [[]]) ++ [[]]⟩ := rfl
  refine ⟨⟨?_, ?_, ?_⟩, ⟨?_, ?_, ?_⟩, ?_, ?_, ?_, ?_, ?_, ?_⟩
  · rw [hP, hF]; omega
  · rw [hP, hA]; omega
  · rw [hF, hA]; omega
  · rw [hH, hP]
    show cellsGet (((h.cells ++ [[]]) ++ [[]]) ++ [[]]) h.cells.length = []
    rw [cellsGet_append_left _ _ _ (by simp), cellsGet_append_left _ _ _ (by simp),
      cellsGet_at_length]
  · rw [hH, hF]
    show cellsGet (((h.cells ++ [[]]) ++ [[]]) ++ [[]]) (h.cells.length + 1) = []
    rw [cellsGet_append_left _ _ _ (by simp)]
    have : h.cells.length + 1 = (h.cells ++ [[]]).length := by simp
    rw [this, cellsGet_at_length]
  · rw [hH, hA]
    show cellsGet (((h.cells ++ [[]]) ++ [[]]) ++ [[]]) (h.cells.length + 2) = []
    have : h.cells.length + 2 = ((h.cells ++ [[]]) ++ [[]]).length := by simp
    rw [this, cellsGet_at_length]
  · rw [hP, hF, hH]
    exact push_get_ne _ _ _ x (by omega)
  · rw [hP, hA, hH]
    exact push_get_ne _ _ _ x (by omega)
  · rw [hF, hP, hH]
    exact push_get_ne _ _ _ x (by omega)
  · rw [hF, hA, hH]
    exact push_get_ne _ _ _ x (by omega)
  · rw [hA, hP, hH]
    exact push_get_ne _ _ _ x (by omega)
  · rw [hA, hF, hH]
    exact push_get_ne _ _ _ x (by omega)

/-- Construction contract of `Integer` under its double decoration:
success exactly on a matching value, and the fixed tag on success,
with or without an explicit tag argument. -/
theorem integer_ctor_spec (v t : PyVal) :
    isOk (pyNew integerCls [v]) = isinstInt v ∧
    isOk (pyNew integerCls [v, t]) = isinstInt v ∧
    fieldOf (pyNew integerCls [v]) "type" =
      (if isinstInt v then some (.vStr "integer") else none) ∧
    fieldOf (pyNew integerCls [v, t]) "type" =
      (if isinstInt v then some (.vStr "integer") else none) := by
  cases v <;> simp [integerCls, integerClass, integerPostInit, isinstInt, pyNew, dataclassDecorate, genInit, bindArgs, literalAnn, Obj.getF, Obj.setF, isOk, fieldOf, Except.bind, bind]

/-- Construction contract of `Float` under its double decoration:
success exactly on a matching value, and the fixed tag on success,
with or without an explicit tag argument. -/
theorem float_ctor_spec (v t : PyVal) :
    isOk (pyNew floatCls [v]) = isinstFloat v ∧
    isOk (pyNew floatCls [v, t]) = isinstFloat v ∧
    fieldOf (pyNew floatCls [v]) "type" =
      (if isinstFloat v then some (.vStr "float") else none) ∧
    fieldOf (pyNew floatCls [v, t]) "type" =
      (if isinstFloat v then some (.vStr "float") else none) := by
  cases v <;> simp [floatCls, floatClass, floatPostInit, isinstFloat, pyNew, dataclassDecorate, genInit, bindArgs, literalAnn, Obj.getF, Obj.setF, isOk, fieldOf, Except.bind, bind]

/-- Construction contract of `Boolean` under its double decoration:
success exactly on a matching value, and the fixed tag on success,
with or without an explicit tag argument. -/
theorem boolean_ctor_spec (v t : PyVal) :
    isOk (pyNew booleanCls [v]) = isinstBool v ∧
    isOk (pyNew booleanCls [v, t]) = isinstBool v ∧
    fieldOf (pyNew booleanCls [v]) "type" =
      (if isinstBool v then some (.vStr "boolean") else none) ∧
    fieldOf (pyNew booleanCls [v, t]) "type" =
      (if isinstBool v then some (.vStr "boolean") else none) := by
  cases v <;> simp [booleanCls, booleanClass, booleanPostInit, isinstBool, pyNew, dataclassDecorate, genInit, bindArgs, literalAnn, Obj.getF, Obj.setF, isOk, fieldOf, Except.bind, bind]

/-- Construction contract of `Char` under its double decoration:
success exactly on a matching value, and the fixed tag on success,
with or without an explicit tag argument. -/
theorem char_ctor_spec (v t : PyVal) :
    isOk (pyNew charCls [v]) = isinstChar1 v ∧
    isOk (pyNew charCls [v, t]) = isinstChar1 v ∧
    fieldOf (pyNew charCls [v]) "type" =
      (if isinstChar1 v then some (.vStr "char") else none) ∧
    fieldOf (pyNew charCls [v, t]) "type" =
      (if isinstChar1 v then some (.vStr "char") else none) := by
  cases v with
  | vStr s =>
    cases hb : s.length == 1 <;>
      simp [charCls, charClass, charPostInit, isinstChar1, hb, pyNew, dataclassDecorate, genInit, bindArgs, literalAnn, Obj.getF, Obj.setF, isOk, fieldOf, Except.bind, bind]
  | vInt n => simp [charCls, charClass, charPostInit, isinstChar1, pyNew, dataclassDecorate, genInit, bindArgs, literalAnn, Obj.getF, Obj.setF, isOk, fieldOf, Except.bind, bind]
  | vBool b => simp [charCls, charClass, charPostInit, isinstChar1, pyNew, dataclassDecorate, genInit, bindArgs, literalAnn, Obj.getF, Obj.setF, isOk, fieldOf, Except.bind, bind]
  | vFloat f => simp [charCls, charClass, charPostInit, isinstChar1, pyNew, dataclassDecorate, genInit, bindArgs, literalAnn, Obj.getF, Obj.setF, isOk, fieldOf, Except.bind, bind]
  | vNone => simp [charCls, charClass, charPostInit, isinstChar1, pyNew, dataclassDecorate, genInit, bindArgs, literalAnn, Obj.getF, Obj.setF, isOk, fieldOf, Except.bind, bind]

/-- Construction contract of `String` under its double decoration:
success exactly on a matching value, and the fixed tag on success,
with or without an explicit tag argument. -/
theorem string_ctor_spec (v t : PyVal) :
    isOk (pyNew stringCls [v]) = isinstStr v ∧
    isOk (pyNew stringCls [v, t]) = isinstStr v ∧
    fieldOf (pyNew stringCls [v]) "type" =
      (if isinstStr v then some (.vStr "string") else none) ∧
    fieldOf (pyNew stringCls [v, t]) "type" =
      (if isinstStr v then some (.vStr "string") else none) := by
  cases v <;> simp [stringCls, stringClass, stringPostInit, isinstStr, pyNew, dataclassDecorate, genInit, bindArgs, literalAnn, Obj.getF, Obj.setF, isOk, fieldOf, Except.bind, bind]

/-- C1: every literal variant constructs successfully exactly when the
supplied value matches the variant (per Python `isinstance`, under
which a bool is an int; a char is a string of length exactly one); on
success the `type` field is the fixed tag of the variant whether or not a
tag argument was passed, and on mismatch the assertion fails and no
object is produced. -/
theorem literal_constructors_validate (v t : PyVal) :
    (    isOk (pyNew integerCls [v]) = isinstInt v ∧
     isOk (pyNew integerCls [v, t]) = isinstInt v ∧
     fieldOf (pyNew integerCls [v]) "type" =
       (if isinstInt v then some (.vStr "integer") else none) ∧
     fieldOf (pyNew integerCls [v, t]) "type" =
       (if isinstInt v then some (.vStr "integer") else none)) ∧
    (    isOk (pyNew floatCls [v]) = isinstFloat v ∧
     isOk (pyNew floatCls [v, t]) = isinstFloat v ∧
     fieldOf (pyNew floatCls [v]) "type" =
       (if isinstFloat v then some (.vStr "float") else none) ∧
     fieldOf (pyNew floatCls [v, t]) "type" =
       (if isinstFloat v then some (.vStr "float") else none)) ∧
    (    isOk (pyNew booleanCls [v]) = isinstBool v ∧
     isOk (pyNew booleanCls [v, t]) = isinstBool v ∧
     fieldOf (pyNew booleanCls [v]) "type" =
       (if isinstBool v then some (.vStr "boolean") else none) ∧
     fieldOf (pyNew booleanCls [v, t]) "type" =
       (if isinstBool v then some (.vStr "boolean") else none)) ∧
    (    isOk (pyNew charCls [v]) = isinstChar1 v ∧
     isOk (pyNew charCls [v, t]) = isinstChar1 v ∧
     fieldOf (pyNew charCls [v]) "type" =
       (if isinstChar1 v then some (.vStr "char") else none) ∧
     fieldOf (pyNew charCls [v, t]) "type" =
       (if isinstChar1 v then some (.vStr "char") else none)) ∧
    (    isOk (pyNew stringCls [v]) = isinstStr v ∧
     isOk (pyNew stringCls [v, t]) = isinstStr v ∧
     fieldOf (pyNew stringCls [v]) "type" =
       (if isinstStr v then some (.vStr "string") else none) ∧
     fieldOf (pyNew stringCls [v, t]) "type" =
       (if isinstStr v then some (.vStr "string") else none)) :=
  ⟨integer_ctor_spec v t, float_ctor_spec v t, boolean_ctor_spec v t, char_ctor_spec v t, string_ctor_spec v t⟩

/-- C6: optional fields are absent by default — a `VarDecl` built from
just a name and a type has `value = None`, a `ReturnStmt` built with no
arguments has `expr = None`, and an `IfStmt` built from just a condition
and a then-branch has `else_stmt = None`; each such construction
succeeds. -/
theorem optional_fields_default_to_none (nm ty c t : PyVal) :
    fieldOf (pyNew varDeclCls [nm, ty]) "value" = some .vNone ∧
    fieldOf (pyNew returnStmtCls []) "expr" = some .vNone ∧
    fieldOf (pyNew ifStmtCls [c, t]) "else_stmt" = some .vNone ∧
    isOk (pyNew varDeclCls [nm, ty]) = true ∧
    isOk (pyNew returnStmtCls []) = true ∧
    isOk (pyNew ifStmtCls [c, t]) = true :=
  ⟨rfl, rfl, rfl, rfl, rfl, rfl⟩

/-- C9: the Integer/Boolean partition is asymmetric at the construction
interface — `Integer(b)` succeeds for every Python bool `b` (bool is a
subclass of int, so the `isinstance(value, int)` assert passes) and tags
the node `integer`, while `Boolean(n)` fails its assert for every plain
(non-bool) int `n`. -/
theorem integer_boolean_asymmetry :
    (∀ b : Bool, pyNew integerCls [.vBool b] =
      .ok [("value", .vBool b), ("type", .vStr "integer")]) ∧
    (∀ n : Int, pyNew booleanCls [.vInt n] =
      .error "AssertionError: Value debe ser un boolean") ∧
    (∀ b : Bool, fieldOf (pyNew integerCls [.vBool b]) "type" =
      some (.vStr "integer")) :=
  ⟨fun _ => rfl, fun _ => rfl, fun _ => rfl⟩

/-- C10: stacking `@dataclass` twice is behaviorally inert — decorating an
already decorated class changes nothing (the second application sees the
generated `__init__`/`__eq__` already present and leaves them, and the
field annotations it reads are unchanged), for every class and in
particular for the eight doubly decorated expression node classes of
`model.py`. -/
theorem double_dataclass_decoration_inert :
    (∀ c : PyClassDef, dataclassDecorate (dataclassDecorate c) = dataclassDecorate c) ∧
    dataclassDecorate (dataclassDecorate binOperClass) = dataclassDecorate binOperClass ∧
    dataclassDecorate (dataclassDecorate unaryOperClass) = dataclassDecorate unaryOperClass ∧
    dataclassDecorate (dataclassDecorate literalClass) = dataclassDecorate literalClass ∧
    dataclassDecorate (dataclassDecorate integerClass) = dataclassDecorate integerClass ∧
    dataclassDecorate (dataclassDecorate floatClass) = dataclassDecorate floatClass ∧
    dataclassDecorate (dataclassDecorate booleanClass) = dataclassDecorate booleanClass ∧
    dataclassDecorate (dataclassDecorate charClass) = dataclassDecorate charClass ∧
    dataclassDecorate (dataclassDecorate stringClass) = dataclassDecorate stringClass :=
  ⟨fun _ => rfl, rfl, rfl, rfl, rfl, rfl, rfl, rfl, rfl⟩
